import Mathlib

/-!
Verification of the trip-planning core of the ai-travel-agent repository.

The Python source is shallowly embedded: Python floats become rationals
(the arithmetic the claims exercise is exact), datetimes become integer day
numbers (timedelta(days = k) becomes + k), Python dicts with a fixed literal
shape become Lean structures, the one dict whose key set matters
(the accommodation offer read back by the report formatter) becomes an
association list, and an uncaught Python exception becomes the error branch
of an Except value.  External collaborators (geocoding, forecast, places,
booking) are passed in as explicit data, mirroring the documented shape of
the responses the code consumes.
-/

/-- Embeds TripPlannerService._calculate_weather_score
(src/_mcp/servers/trip_planner/service.py lines 278-315).
This is the scorer invoked by _select_optimal_dates, i.e. the one used for
trip-date selection.  Each if/elif chain of score -= statements is embedded
as subtracting the penalty amount the chain selects (0 when no branch
fires), which is the same arithmetic.  The Python function returns
max(0.0, score) as a float, with no truncation to int. -/
def calculate_weather_score (max_temp min_temp precip_sum precip_prob wind_speed : ℚ)
    (weather_code : ℤ) : ℚ :=
  let score : ℚ := 100
  let score := score - (if max_temp > 35 ∨ max_temp < 5 then 30
    else if max_temp > 30 ∨ max_temp < 10 then 15 else 0)
  let score := score - (if min_temp < 0 then 20
    else if min_temp < 5 then 10 else 0)
  let score := score - precip_sum * 10
  let score := score - precip_prob / 2
  let score := score - (if wind_speed > 50 then 25
    else if wind_speed > 30 then 10 else 0)
  let score := score - (if weather_code ≥ 95 then 30
    else if weather_code ≥ 71 then 25
    else if weather_code ≥ 61 then 20
    else if weather_code ≥ 51 then 10 else 0)
  max 0 score

/-- Embeds WeatherService._calculate_day_score
(src/_mcp/servers/weather/service.py lines 283-324) with the numeric
thresholds of src/_mcp/servers/weather/constants.py inlined
(TEMPERATURE_THRESHOLDS, WIND_THRESHOLDS, WEATHER_CODE_PENALTIES).
Each if/elif chain of score -= statements is embedded as subtracting the
penalty amount the chain selects.  The Python return is
int(max(0.0, score)); int() truncates toward zero and the argument is
nonnegative, so it is the floor. -/
def calculate_day_score (max_temp min_temp precip_sum precip_prob wind : ℚ)
    (weather_code : ℤ) : ℤ :=
  let score : ℚ := 100
  let score := score - (if max_temp > 30 ∨ min_temp < 5 then 30
    else if max_temp > 25 ∨ min_temp < 10 then 15 else 0)
  let score := score - precip_sum * 10
  let score := score - precip_prob / 2
  let score := score - (if wind > 40 then 25
    else if wind > 30 then 15 else 0)
  let score := score - (if weather_code ≥ 70 then 40
    else if weather_code ≥ 50 then 30
    else if weather_code ≥ 30 then 20 else 0)
  Int.floor (max 0 score)

/-- Modelled from the spec: the reference Forecast Scorer of spec.md section 4.2,
written from the words of the spec (not from any source function) for the
refinement comparison of claim C1: start at 100; minus 30 if max_temp_c over 30
or min_temp_c under 5, else minus 15 if max_temp_c over 25 or min_temp_c under
10; minus precipitation_mm times 10 with that single term capped at 50; minus
precipitation_probability_pct over 2 capped at 30; minus 25 if wind over 40
else 15 if over 30; minus 40 if code at least 70, else 30 if at least 50, else
20 if at least 30; final score is max(0, total) truncated to integer. -/
def specForecastScore (max_temp min_temp precip_sum precip_prob wind : ℚ)
    (weather_code : ℤ) : ℤ :=
  let score : ℚ := 100
  let score := score - (if max_temp > 30 ∨ min_temp < 5 then 30
    else if max_temp > 25 ∨ min_temp < 10 then 15 else 0)
  let score := score - min (precip_sum * 10) 50
  let score := score - min (precip_prob / 2) 30
  let score := score - (if wind > 40 then 25
    else if wind > 30 then 15 else 0)
  let score := score - (if weather_code ≥ 70 then 40
    else if weather_code ≥ 50 then 30
    else if weather_code ≥ 30 then 20 else 0)
  Int.floor (max 0 score)

/-- One entry of the scored_days list built by _select_optimal_dates:
the Python dict holds a datetime (here: an integer day number) and a
float score (here: a rational). -/
structure ScoredDay where
  date : ℤ
  score : ℚ
deriving DecidableEq, Repr

/-- Embeds sorted(scored_days, key = lambda x: x.date) from
_find_best_consecutive_days.  Python sorted is the unique stable ascending
sort by the key; insertionSort with this relation computes exactly that
stable sort. -/
def sortByDate (l : List ScoredDay) : List ScoredDay :=
  List.insertionSort (fun a b => a.date ≤ b.date) l

/-- Embeds the inner consecutiveness check of _find_best_consecutive_days
(service.py lines 331-336): dates at positions i .. i+n-1 each exactly one
day after the previous. -/
def consecutiveAt (l : List ScoredDay) (i n : ℕ) : Bool :=
  (List.range (n - 1)).all fun j =>
    (l.getD (i + j + 1) ⟨0, 0⟩).date - (l.getD (i + j) ⟨0, 0⟩).date == 1

/-- Embeds the window total of _find_best_consecutive_days (line 340):
sum of the scores at positions i .. i+n-1. -/
def windowScore (l : List ScoredDay) (i n : ℕ) : ℚ :=
  ((List.range n).map fun k => (l.getD (i + k) ⟨0, 0⟩).score).sum

/-- One iteration of the best-window loop of _find_best_consecutive_days
(lines 330-343): best_score starts at 0 and is replaced only on a strictly
greater consecutive-window total. -/
def bestStep (l : List ScoredDay) (n : ℕ) (acc : ℚ × ℕ) (i : ℕ) : ℚ × ℕ :=
  if consecutiveAt l i n then
    (if acc.1 < windowScore l i n then (windowScore l i n, i) else acc)
  else acc

/-- Embeds TripPlannerService._find_best_consecutive_days
(service.py lines 317-348).  Returns the dates of the selected window, or []
(the NotFound outcome) when fewer days than needed are supplied or when no
window achieved a total strictly above the initial best_score of 0. -/
def findBestConsecutiveDays (scoredDays : List ScoredDay) (daysNeeded : ℕ) : List ℤ :=
  if scoredDays.length < daysNeeded then []
  else
    let sorted := sortByDate scoredDays
    let best := (List.range (sorted.length - daysNeeded + 1)).foldl
      (bestStep sorted daysNeeded) (0, 0)
    if 0 < best.1 then
      (List.range daysNeeded).map fun k => (sorted.getD (best.2 + k) ⟨0, 0⟩).date
    else []

/-- One day of the forecast payload consumed by _select_optimal_dates: the
aligned per-day arrays of the daily dict are modelled as a list of rows
(the per-index defaults for ragged arrays never fire on aligned data). -/
structure DailyRow where
  date : ℤ
  maxTemp : ℚ
  minTemp : ℚ
  precipSum : ℚ
  precipProb : ℚ
  windSpeed : ℚ
  weatherCode : ℤ
deriving DecidableEq

/-- Outcome of weather_service.get_forecast_data as _select_optimal_dates
sees it: an error string, or a daily payload (empty list models a payload
with no time entries). -/
inductive ForecastResult where
  | fetchError (msg : String)
  | dailyData (rows : List DailyRow)
deriving DecidableEq

/-- Embeds the scoring loop of _select_optimal_dates (lines 251-264):
the first at most 14 rows are scored with _calculate_weather_score. -/
def scoreRows (rows : List DailyRow) : List ScoredDay :=
  (rows.take 14).map fun r =>
    ⟨r.date, calculate_weather_score r.maxTemp r.minTemp r.precipSum r.precipProb
      r.windSpeed r.weatherCode⟩

/-- Embeds scored_days.sort(key = score, reverse = True) of
_select_optimal_dates (line 267): the stable descending sort by score. -/
def sortByScoreDesc (l : List ScoredDay) : List ScoredDay :=
  List.insertionSort (fun a b => b.score ≤ a.score) l

/-- Embeds TripPlannerService._select_optimal_dates (service.py lines
211-276) with datetime.now() passed in as the integer day number `now`.
Every fallback branch of the source produces the same list of `days` dates
starting the day after `now`. -/
def selectOptimalDates (now : ℤ) (days : ℕ) (forecast : ForecastResult) : List ℤ :=
  match forecast with
  | .fetchError _ => (List.range days).map fun i : ℕ => (now + 1) + (i : ℤ)
  | .dailyData rows =>
    if rows.isEmpty then (List.range days).map fun i : ℕ => (now + 1) + (i : ℤ)
    else
      let bestDates := findBestConsecutiveDays (sortByScoreDesc (scoreRows rows)) days
      if bestDates.isEmpty then (List.range days).map fun i : ℕ => now + ((i : ℤ) + 1)
      else bestDates

/-- One entry of TRIP_STYLES (src/_mcp/servers/trip_planner/constants.py). -/
structure StyleConfig where
  activitiesPerDay : ℕ
  travelRadius : ℕ
  pace : String
  preferredTypes : List String
deriving DecidableEq

/-- Embeds the TRIP_STYLES constant of
src/_mcp/servers/trip_planner/constants.py lines 20-51. -/
def tripStyles : List (String × StyleConfig) :=
  [("relaxed", ⟨2, 10000, "slow", ["restaurant", "cafe", "park", "museum", "spa"]⟩),
   ("balanced", ⟨3, 15000, "moderate",
      ["tourist_attraction", "restaurant", "museum", "park", "shopping_mall"]⟩),
   ("adventure", ⟨4, 25000, "fast",
      ["tourist_attraction", "amusement_park", "zoo", "park", "sport_center"]⟩),
   ("cultural", ⟨3, 20000, "moderate",
      ["museum", "art_gallery", "church", "tourist_attraction", "restaurant"]⟩),
   ("food_focused", ⟨4, 15000, "moderate",
      ["restaurant", "cafe", "bakery", "bar", "market"]⟩)]

/-- Embeds the TRIP_DURATIONS presets (constants.py lines 6-12). -/
def tripDurations : List (String × ℕ) :=
  [("weekend", 2), ("short", 3), ("week", 7), ("extended", 14), ("month", 30)]

/-- The keys of BUDGET_CATEGORIES (constants.py lines 110-129); plan_trip
uses only membership and the key list. -/
def budgetCategories : List String := ["budget", "mid_range", "luxury"]

/-- The duration argument of plan_trip: absent, an integer (Python ints and
digit-only strings both take this path), or a named preset (the source
lowercases before lookup; presets are modelled already lowercased). -/
inductive DurationInput where
  | notGiven
  | days (n : ℤ)
  | preset (s : String)
deriving DecidableEq

/-- Embeds TripPlannerService._parse_duration (service.py lines 184-209):
None gives DEFAULT_TRIP_DURATION = 3, integers must lie in [1, 30],
presets are looked up in TRIP_DURATIONS. -/
def parseDuration : DurationInput → Option ℕ
  | .notGiven => some 3
  | .days n => if 1 ≤ n ∧ n ≤ 30 then some n.toNat else none
  | .preset s => tripDurations.lookup s

/-- The start_date argument of plan_trip: absent, a date that parses
(an integer day number), or a string strptime rejects. -/
inductive StartDateInput where
  | notGiven
  | given (d : ℤ)
  | malformed
deriving DecidableEq

/-- The location argument of plan_trip: a free-text name (geocoded) or a
coordinate pair (used as is, no geocoding). -/
inductive LocationInput where
  | name (s : String)
  | coords (lat lng : ℚ)

/-- One result of places_service.search_places_data as consumed by
_get_activity_for_time; the .get defaults of the source never fire on
fully populated results, which is how responses are modelled. -/
structure Place where
  name : String
  rating : ℚ
  vicinity : String
  placeId : String
  priceLevel : ℤ
deriving DecidableEq

/-- Outcome of search_places_data: an error string or a result list. -/
inductive PlacesResult where
  | err (msg : String)
  | results (ps : List Place)

/-- The activity dict built by _get_activity_for_time (service.py lines
514-522); the dict keys type and time become activityType and timeSlot. -/
structure Activity where
  activityType : String
  timeSlot : String
  name : String
  rating : ℚ
  address : String
  placeId : String
  priceLevel : ℤ
deriving DecidableEq

/-- Embeds TripPlannerService._get_activity_for_time (service.py lines
484-525): an error response or an empty result list yields None, otherwise
the first result is taken and tagged with the time period.  The places
collaborator is an explicit function of activity type and radius. -/
def getActivityForTime (places : String → ℕ → PlacesResult) (activityType : String)
    (radius : ℕ) (timePeriod : String) : Option Activity :=
  match places activityType radius with
  | .err _ => none
  | .results [] => none
  | .results (p :: _) =>
      some ⟨activityType, timePeriod, p.name, p.rating, p.vicinity, p.placeId, p.priceLevel⟩

/-- The day-plan dict built by _plan_single_day (lines 438-443); the
cosmetic day_name string is omitted, date is the integer day number. -/
structure DayPlan where
  date : ℤ
  activities : List Activity
  totalActivities : ℕ
deriving DecidableEq

/-- The morning category filter of _plan_single_day (line 414). -/
def morningCategories : List String := ["cafe", "museum", "park", "tourist_attraction"]

/-- The body of TripPlannerService._plan_single_day (service.py lines
391-443) for the case in which Python raises no exception: one morning
activity from the first preferred type that is a morning category (if any),
min(activities_per_day - 1, 2) afternoon activities cycling through the
preferred types, and one evening restaurant activity; activities that come
back None are skipped. -/
def planSingleDayCore (places : String → ℕ → PlacesResult) (date : ℤ)
    (cfg : StyleConfig) : DayPlan :=
  let morningTypes := cfg.preferredTypes.filter fun t => morningCategories.contains t
  let morningActs : List Activity :=
    match morningTypes with
    | [] => []
    | t :: _ => (getActivityForTime places t cfg.travelRadius "morning").toList
  let afternoonActs : List Activity :=
    (List.range (min (cfg.activitiesPerDay - 1) 2)).filterMap fun i =>
      getActivityForTime places
        (cfg.preferredTypes.getD (i % cfg.preferredTypes.length) "")
        cfg.travelRadius "afternoon"
  let eveningActs : List Activity :=
    (getActivityForTime places "restaurant" cfg.travelRadius "evening").toList
  let acts := morningActs ++ afternoonActs ++ eveningActs
  ⟨date, acts, acts.length⟩

/-- Embeds TripPlannerService._plan_single_day including the one uncaught
exception of its body: indexing preferred_types[i % len(preferred_types)]
raises ZeroDivisionError when the preferred list is empty and the afternoon
loop runs at least once (Python modulo by zero); plan_trip does not catch
it.  All shipped TRIP_STYLES have nonempty preferred lists. -/
def planSingleDay (places : String → ℕ → PlacesResult) (date : ℤ)
    (cfg : StyleConfig) : Except String DayPlan :=
  if cfg.preferredTypes.length = 0 ∧ 0 < min (cfg.activitiesPerDay - 1) 2 then
    .error "ZeroDivisionError"
  else .ok (planSingleDayCore places date cfg)

/-- One result of booking_service.search_accommodations_data as consumed
by _get_accommodation_suggestions (name, rating and the nested price dict
flattened to amount and currency). -/
structure Accommodation where
  name : String
  rating : ℚ
  priceAmount : ℚ
  priceCurrency : String
deriving DecidableEq

/-- Outcome of search_accommodations_data: error string or result list. -/
inductive BookingResult where
  | err (msg : String)
  | results (items : List Accommodation)

/-- A Python dict value, for the one dict whose key set the claims inspect
(the accommodation offer). -/
inductive PyVal where
  | str (v : String)
  | rat (v : ℚ)
  | int (v : ℤ)
deriving DecidableEq

/-- The offer dict literal built by _get_accommodation_suggestions
(service.py lines 562-571), as an association list so that its key set is
part of the model.  check_out = check_in + nights, total_cost =
price amount times nights. -/
def mkAccommodationDict (a : Accommodation) (checkIn : ℤ) (nights : ℕ) :
    List (String × PyVal) :=
  [("name", .str a.name),
   ("rating", .rat a.rating),
   ("price_per_night", .rat a.priceAmount),
   ("currency", .str a.priceCurrency),
   ("total_cost", .rat (a.priceAmount * nights)),
   ("check_in", .int checkIn),
   ("check_out", .int (checkIn + nights)),
   ("nights", .int nights)]

/-- Embeds TripPlannerService._get_accommodation_suggestions (service.py
lines 527-574): None without a booking credential, None on an error or
empty search response, otherwise the offer dict built from the first
result. -/
def getAccommodationSuggestions (apiKey : Bool) (booking : BookingResult)
    (checkIn : ℤ) (nights : ℕ) : Option (List (String × PyVal)) :=
  if apiKey then
    match booking with
    | .err _ => none
    | .results [] => none
    | .results (a :: _) => some (mkAccommodationDict a checkIn nights)
  else none

/-- Python dict subscription d[key]: the value, or a raised KeyError. -/
def dictGet (d : List (String × PyVal)) (key : String) : Except String PyVal :=
  match d.lookup key with
  | some v => .ok v
  | none => .error ("KeyError: " ++ key)

/-- The data the accommodation block of _format_trip_plan reads from the
offer dict (service.py lines 606-611). -/
structure AccommodationSection where
  checkIn : PyVal
  checkOut : PyVal
  nights : PyVal
  suggestions : PyVal
deriving DecidableEq

/-- The content of the report rendered by _format_trip_plan, modelled
structurally: header data, the optional accommodation block, and the per-day
itinerary (the daily plans in order). -/
structure TripReport where
  location : String
  startDate : ℤ
  endDate : ℤ
  numDays : ℕ
  tripStyle : String
  budget : String
  accommodationSection : Option AccommodationSection
  days : List DayPlan
deriving DecidableEq

/-- Embeds TripPlannerService._format_trip_plan (service.py lines 576-638)
at the structural level: when an accommodation offer is present the source
subscripts check_in, check_out, nights and then suggestions on the offer
dict while building the accommodation section; a missing key raises
KeyError out of plan_trip (there is no try around rendering).  The
per-day itinerary is rendered from the daily plans in order. -/
def formatTripPlan (location : String) (dates : List ℤ) (dailyPlans : List DayPlan)
    (accommodation : Option (List (String × PyVal))) (tripStyle budget : String) :
    Except String TripReport := do
  let sec ← match accommodation with
    | none => pure (none : Option AccommodationSection)
    | some offer => do
        let ci ← dictGet offer "check_in"
        let co ← dictGet offer "check_out"
        let ni ← dictGet offer "nights"
        let su ← dictGet offer "suggestions"
        pure (some ⟨ci, co, ni, su⟩)
  pure ⟨location, dates.headD 0, dates.getLastD 0, dates.length, tripStyle, budget,
    sec, dailyPlans⟩

/-- The external collaborators and ambient state a plan_trip call depends
on: the geocoder (None models the (None, None) failure return of
get_coordinates), the forecast payload, the places search keyed by activity
type and radius, the booking credential flag and search response, and the
current day number (datetime.now()). -/
structure Env where
  geocode : String → Option (ℚ × ℚ)
  forecast : ForecastResult
  places : String → ℕ → PlacesResult
  bookingApiKey : Bool
  booking : BookingResult
  now : ℤ

/-- Embeds the location block of plan_trip (service.py lines 66-73): a name
is geocoded and rejected when the lookup fails or either coordinate is
falsy (Python: if not lat or not lng, so 0 is rejected too); a coordinate
pair is used directly with a synthetic display name. -/
def resolveLocation (env : Env) : LocationInput → Option (ℚ × ℚ × String)
  | .name s =>
      match env.geocode s with
      | none => none
      | some (lat, lng) => if lat = 0 ∨ lng = 0 then none else some (lat, lng, s)
  | .coords lat lng => some (lat, lng, "coordinates")

/-- The distinct early-return messages of plan_trip (service.py lines
66-100), as tags carrying the data the message interpolates. -/
inductive PlanMsg where
  | locationNotFound
  | invalidDuration
  | invalidStyle (given : String) (available : List String)
  | invalidBudget (given : String) (available : List String)
  | invalidDates
  | noWeatherData
deriving DecidableEq

/-- A plan_trip return value: an early-return message string or a rendered
report. -/
inductive PlanResult where
  | message (m : PlanMsg)
  | report (r : TripReport)
deriving DecidableEq

/-- The tail of plan_trip after dates are fixed (service.py lines 102-123):
plan each day, optionally fetch the accommodation offer (guarded by
include_accommodation and the credential), then render. -/
def planTripRest (env : Env) (locationName : String) (dates : List ℤ)
    (styleConfig : StyleConfig) (tripStyle budget : String)
    (includeAccommodation : Bool) : Except String PlanResult := do
  let dailyPlans ← dates.mapM fun d => planSingleDay env.places d styleConfig
  let accommodation :=
    if includeAccommodation && env.bookingApiKey then
      getAccommodationSuggestions env.bookingApiKey env.booking
        (dates.headD 0) dates.length
    else none
  let rep ← formatTripPlan locationName dates dailyPlans accommodation tripStyle budget
  pure (.report rep)

/-- Embeds TripPlannerService.plan_trip (service.py lines 45-123): resolve
the location, parse the duration, validate style then budget, fix the dates
(explicit start, or weather-based selection with the no-data early return),
then plan days, optionally attach accommodation, and render.  The Except
error branch models an uncaught Python exception escaping plan_trip. -/
def planTrip (env : Env) (location : LocationInput) (startDate : StartDateInput)
    (duration : DurationInput) (tripStyle : String) (budget : String)
    (includeAccommodation : Bool) : Except String PlanResult :=
  match resolveLocation env location with
  | none => .ok (.message .locationNotFound)
  | some (_, _, locationName) =>
    match parseDuration duration with
    | none => .ok (.message .invalidDuration)
    | some tripDays =>
      match tripStyles.lookup tripStyle with
      | none => .ok (.message (.invalidStyle tripStyle (tripStyles.map Prod.fst)))
      | some styleConfig =>
        if budgetCategories.contains budget then
          match startDate with
          | .malformed => .ok (.message .invalidDates)
          | .given d =>
              planTripRest env locationName ((List.range tripDays).map fun i : ℕ => d + (i : ℤ))
                styleConfig tripStyle budget includeAccommodation
          | .notGiven =>
              let dates := selectOptimalDates env.now tripDays env.forecast
              if dates.isEmpty then .ok (.message .noWeatherData)
              else planTripRest env locationName dates styleConfig tripStyle budget
                includeAccommodation
        else .ok (.message (.invalidBudget budget budgetCategories))

/-- A fully contiguous scored sequence: n days starting at day d with dates
increasing by exactly one, scores given by s.  This is the input family of
claim C2. -/
def mkContiguous (d : ℤ) (s : ℕ → ℚ) (n : ℕ) : List ScoredDay :=
  (List.range n).map fun i : ℕ => ⟨d + (i : ℤ), s i⟩

/-- A places collaborator that always returns one candidate: the
no-lookup-fails scenario of claims C8 and the plan_trip claims. -/
def placesAlways : String → ℕ → PlacesResult := fun t _ =>
  .results [⟨"Sample " ++ t, 4, "Main Street 1", "pid", 1⟩]

/-- A concrete accommodation search result for witnesses. -/
def sampleAccommodation : Accommodation := ⟨"Hotel Roma", 4, 120, "USD"⟩

/-- An environment whose geocoder finds nothing (all other collaborators
fail as well); used to exercise the location-first control flow. -/
def envNoGeo : Env :=
  ⟨fun _ => none, .fetchError "down", fun _ _ => .err "down", false, .err "down", 0⟩

/-- An environment with a working geocoder, a configured booking credential
and one accommodation search result. -/
def envWithBooking : Env :=
  ⟨fun _ => some (1, 1), .fetchError "down", placesAlways, true,
    .results [sampleAccommodation], 0⟩

/-- An environment with a working geocoder and no booking credential. -/
def envNoBookingKey : Env :=
  ⟨fun _ => some (1, 1), .fetchError "down", placesAlways, false, .err "down", 0⟩

/-! ### Helper lemmas -/

lemma lookup_mem_values {α β : Type} [BEq α] (l : List (α × β)) (k : α) (v : β)
    (h : l.lookup k = some v) : v ∈ l.map Prod.snd := by
  induction l with
  | nil => simp [List.lookup] at h
  | cons p t ih =>
      obtain ⟨k1, v1⟩ := p
      rw [List.lookup] at h
      split at h
      · simp only [Option.some.injEq] at h
        subst h
        simp
      · simpa using Or.inr (by simpa using ih h)

lemma mapM_ok {α β : Type} (l : List α) (f : α → Except String β) (g : α → β)
    (h : ∀ x ∈ l, f x = .ok (g x)) : l.mapM f = .ok (l.map g) := by
  induction l with
  | nil => rfl
  | cons a t ih =>
      rw [List.mapM_cons, h a (by simp)]
      rw [ih (fun x hx => h x (by simp [hx]))]
      rfl

lemma planSingleDay_ok (places : String → ℕ → PlacesResult) (d : ℤ) (cfg : StyleConfig)
    (h : cfg.preferredTypes ≠ []) :
    planSingleDay places d cfg = .ok (planSingleDayCore places d cfg) := by
  unfold planSingleDay
  rw [if_neg]
  rintro ⟨h0, _⟩
  exact h (List.length_eq_zero.mp h0)

lemma tripStyles_preferred_ne_nil (s : String) (cfg : StyleConfig)
    (h : tripStyles.lookup s = some cfg) : cfg.preferredTypes ≠ [] := by
  have hv := lookup_mem_values _ _ _ h
  simp only [tripStyles, List.map_cons, List.map_nil, List.mem_cons,
    List.not_mem_nil, or_false] at hv
  rcases hv with h1 | h1 | h1 | h1 | h1 <;> (subst h1; decide)

lemma parseDuration_pos (d : DurationInput) (n : ℕ) (h : parseDuration d = some n) :
    1 ≤ n := by
  cases d with
  | notGiven =>
      simp only [parseDuration, Option.some.injEq] at h
      omega
  | days m =>
      simp only [parseDuration] at h
      split at h
      · rename_i hc
        simp only [Option.some.injEq] at h
        omega
      · cases h
  | preset s =>
      have hv := lookup_mem_values _ _ _ h
      simp only [tripDurations, List.map_cons, List.map_nil, List.mem_cons,
        List.not_mem_nil, or_false] at hv
      omega

lemma findBestConsecutiveDays_length (l : List ScoredDay) (n : ℕ) :
    findBestConsecutiveDays l n = [] ∨ (findBestConsecutiveDays l n).length = n := by
  rw [findBestConsecutiveDays]
  split
  · exact Or.inl rfl
  · dsimp only
    split
    · right; simp
    · exact Or.inl rfl

lemma selectOptimalDates_length (now : ℤ) (days : ℕ) (fc : ForecastResult) :
    (selectOptimalDates now days fc).length = days := by
  cases fc with
  | fetchError m =>
      rw [selectOptimalDates, List.length_map, List.length_range]
  | dailyData rows =>
      rw [selectOptimalDates]
      dsimp only
      split
      · rw [List.length_map, List.length_range]
      · split
        · rw [List.length_map, List.length_range]
        · rename_i hemp
          rcases findBestConsecutiveDays_length (sortByScoreDesc (scoreRows rows)) days
            with h | h
          · rw [h] at hemp
            simp at hemp
          · exact h

lemma bestStep_fst_le (l : List ScoredDay) (n : ℕ) (acc : ℚ × ℕ) (i : ℕ) :
    acc.1 ≤ (bestStep l n acc i).1 := by
  unfold bestStep
  split
  · split
    · rename_i hlt
      exact le_of_lt hlt
    · exact le_rfl
  · exact le_rfl

lemma foldl_bestStep_fst_mono (l : List ScoredDay) (n : ℕ) (idxs : List ℕ)
    (acc : ℚ × ℕ) : acc.1 ≤ (idxs.foldl (bestStep l n) acc).1 := by
  induction idxs generalizing acc with
  | nil => exact le_rfl
  | cons j t ih => exact le_trans (bestStep_fst_le l n acc j) (ih _)

lemma foldl_bestStep_fst_ge (l : List ScoredDay) (n : ℕ) (idxs : List ℕ)
    (acc : ℚ × ℕ) (i : ℕ) (hmem : i ∈ idxs) (hcons : consecutiveAt l i n = true) :
    windowScore l i n ≤ (idxs.foldl (bestStep l n) acc).1 := by
  induction idxs generalizing acc with
  | nil => cases hmem
  | cons j t ih =>
      rw [List.foldl_cons]
      rcases List.mem_cons.mp hmem with rfl | hmem2
      · refine le_trans ?_ (foldl_bestStep_fst_mono l n t (bestStep l n acc i))
        unfold bestStep
        rw [if_pos hcons]
        split
        · exact le_rfl
        · rename_i hnlt
          exact le_of_not_lt hnlt
      · exact ih _ hmem2

lemma foldl_bestStep_snd_mem (l : List ScoredDay) (n : ℕ) (idxs : List ℕ)
    (acc : ℚ × ℕ) :
    (idxs.foldl (bestStep l n) acc).2 = acc.2 ∨
      (idxs.foldl (bestStep l n) acc).2 ∈ idxs := by
  induction idxs generalizing acc with
  | nil => exact Or.inl rfl
  | cons j t ih =>
      rw [List.foldl_cons]
      rcases ih (bestStep l n acc j) with h | h
      · rw [h]
        unfold bestStep
        split
        · split
          · exact Or.inr (by simp)
          · exact Or.inl rfl
        · exact Or.inl rfl
      · exact Or.inr (List.mem_cons_of_mem _ h)

lemma foldl_bestStep_const (l : List ScoredDay) (n : ℕ) (idxs : List ℕ)
    (acc : ℚ × ℕ) (h : ∀ i ∈ idxs, ¬ acc.1 < windowScore l i n) :
    idxs.foldl (bestStep l n) acc = acc := by
  induction idxs with
  | nil => rfl
  | cons j t ih =>
      rw [List.foldl_cons]
      have hstep : bestStep l n acc j = acc := by
        unfold bestStep
        split
        · rw [if_neg (h j (by simp))]
        · rfl
      rw [hstep]
      exact ih fun i hi => h i (by simp [hi])

lemma mkContiguous_length (d : ℤ) (s : ℕ → ℚ) (n : ℕ) :
    (mkContiguous d s n).length = n := by
  simp [mkContiguous]

lemma mkContiguous_getD (d : ℤ) (s : ℕ → ℚ) (n k : ℕ) (hk : k < n) :
    (mkContiguous d s n).getD k ⟨0, 0⟩ = ⟨d + (k : ℤ), s k⟩ := by
  simp [mkContiguous, List.getD_eq_getElem?_getD, List.getElem?_map,
    List.getElem?_range hk]

lemma mkContiguous_sorted (d : ℤ) (s : ℕ → ℚ) (n : ℕ) :
    sortByDate (mkContiguous d s n) = mkContiguous d s n := by
  have hp : ((List.range n).map fun i : ℕ => (⟨d + (i : ℤ), s i⟩ : ScoredDay)).Pairwise
      (fun a b => a.date ≤ b.date) := by
    rw [List.pairwise_map]
    refine List.Pairwise.imp ?_ (List.pairwise_lt_range n)
    intro a b hab
    show d + (a : ℤ) ≤ d + (b : ℤ)
    omega
  exact List.Sorted.insertionSort_eq hp

lemma mkContiguous_consecutiveAt (d : ℤ) (s : ℕ → ℚ) (i : ℕ) (hi : i ≤ 7) :
    consecutiveAt (mkContiguous d s 14) i 7 = true := by
  unfold consecutiveAt
  rw [List.all_eq_true]
  intro j hj
  rw [List.mem_range] at hj
  rw [mkContiguous_getD _ _ _ _ (by omega), mkContiguous_getD _ _ _ _ (by omega)]
  simp only [beq_iff_eq]
  push_cast
  ring

lemma mkContiguous_windowScore (d : ℤ) (s : ℕ → ℚ) (w : ℕ) (hw : w ≤ 7) :
    windowScore (mkContiguous d s 14) w 7
      = ((List.range 7).map fun k => s (w + k)).sum := by
  unfold windowScore
  congr 1
  apply List.map_congr_left
  intro k hk
  rw [List.mem_range] at hk
  rw [mkContiguous_getD _ _ _ _ (by omega)]

lemma sum_map_range_pos (f : ℕ → ℚ) : ∀ n : ℕ, (∀ k, k < n → 0 ≤ f k) →
    (∃ k0, k0 < n ∧ 0 < f k0) → 0 < ((List.range n).map f).sum := by
  intro n
  induction n with
  | zero =>
      rintro _ ⟨k0, hk0, _⟩
      omega
  | succ m ih =>
      rintro h0 ⟨k0, hk0, hp⟩
      rw [List.range_succ, List.map_append, List.sum_append]
      have hnn : (0 : ℚ) ≤ ((List.range m).map f).sum := by
        apply List.sum_nonneg
        intro x hx
        rw [List.mem_map] at hx
        obtain ⟨k, hk, rfl⟩ := hx
        rw [List.mem_range] at hk
        exact h0 k (by omega)
      have hm0 : (0 : ℚ) ≤ f m := h0 m (by omega)
      rcases Nat.lt_succ_iff_lt_or_eq.mp hk0 with h | h
      · have := ih (fun k hk => h0 k (by omega)) ⟨k0, h, hp⟩
        have hsing : ([m].map f).sum = f m := by simp
        rw [hsing]
        linarith
      · subst h
        have hsing : ([k0].map f).sum = f k0 := by simp
        rw [hsing]
        linarith

/-! ### Claim C1 -/

/-- Claim C1, counterexample: at max_temp 20, min_temp 15, precipitation 6 mm,
probability 0, wind 0, code 0, the spec reference scorer gives 50 (the
precipitation term is capped at 50) while the scorer used for trip-date
selection gives 40 (no cap), and the weather-service scorer also gives 40;
so neither scorer computes the spec reference definition. -/
theorem c1_counterexample :
    specForecastScore 20 15 6 0 0 0 = 50 ∧
    calculate_weather_score 20 15 6 0 0 0 = 40 ∧
    calculate_day_score 20 15 6 0 0 0 = 40 := by
  refine ⟨?_, ?_, ?_⟩ <;>
    norm_num [specForecastScore, calculate_weather_score, calculate_day_score]

/-- Claim C1 as amended: the scorer used for trip-date selection
(TripPlannerService._calculate_weather_score) computes max(0, 100 minus a
max-temp penalty at thresholds 35/30 with the extreme branch also firing
below 5, minus a separate min-temp penalty of 20 below 0 else 10 below 5,
minus precipitation_mm times 10 uncapped, minus probability over 2 uncapped,
minus a wind penalty of 25 above 50 else 10 above 30, minus a condition-code
penalty of 30 at 95, 25 at 71, 20 at 61, 10 at 51) as a float with no
integer truncation; and the weather-service scorer
(WeatherService._calculate_day_score) agrees with the spec reference
definition exactly when neither precipitation cap would bind. -/
theorem c1_theorem (max_temp min_temp precip_sum precip_prob wind : ℚ)
    (weather_code : ℤ) (hp : precip_sum * 10 ≤ 50) (hpr : precip_prob / 2 ≤ 30) :
    calculate_weather_score max_temp min_temp precip_sum precip_prob wind weather_code =
      max 0 (100
        - (if max_temp > 35 ∨ max_temp < 5 then 30
           else if max_temp > 30 ∨ max_temp < 10 then 15 else 0)
        - (if min_temp < 0 then 20 else if min_temp < 5 then 10 else 0)
        - precip_sum * 10 - precip_prob / 2
        - (if wind > 50 then 25 else if wind > 30 then 10 else 0)
        - (if weather_code ≥ 95 then 30 else if weather_code ≥ 71 then 25
           else if weather_code ≥ 61 then 20
           else if weather_code ≥ 51 then 10 else 0)) ∧
    calculate_day_score max_temp min_temp precip_sum precip_prob wind weather_code =
      specForecastScore max_temp min_temp precip_sum precip_prob wind weather_code := by
  constructor
  · rfl
  · simp only [calculate_day_score, specForecastScore, min_eq_left hp, min_eq_left hpr]

/-- Witness for the C1 theorem at a concrete input with both caps
non-binding. -/
theorem c1_theorem_witness :
    calculate_day_score 22 14 0 0 10 1 = specForecastScore 22 14 0 0 10 1 :=
  (c1_theorem 22 14 0 0 10 1 (by norm_num) (by norm_num)).2

/-! ### Claim C5 -/

/-- Claim C5: for every daily forecast input (precipitation amount and
probability are nonnegative quantities), both scorer implementations return
a score in [0, 100]. -/
theorem c5_theorem (max_temp min_temp precip_sum precip_prob wind : ℚ)
    (weather_code : ℤ) (hp : 0 ≤ precip_sum) (hpr : 0 ≤ precip_prob) :
    (0 ≤ calculate_weather_score max_temp min_temp precip_sum precip_prob wind weather_code ∧
      calculate_weather_score max_temp min_temp precip_sum precip_prob wind weather_code ≤ 100) ∧
    (0 ≤ calculate_day_score max_temp min_temp precip_sum precip_prob wind weather_code ∧
      calculate_day_score max_temp min_temp precip_sum precip_prob wind weather_code ≤ 100) := by
  have ha1 : (0 : ℚ) ≤ (if max_temp > 35 ∨ max_temp < 5 then 30
      else if max_temp > 30 ∨ max_temp < 10 then 15 else 0) := by
    split_ifs <;> norm_num
  have ha2 : (0 : ℚ) ≤ (if min_temp < 0 then 20 else if min_temp < 5 then 10 else 0) := by
    split_ifs <;> norm_num
  have ha3 : (0 : ℚ) ≤ (if wind > 50 then 25 else if wind > 30 then 10 else 0) := by
    split_ifs <;> norm_num
  have ha4 : (0 : ℚ) ≤ (if weather_code ≥ 95 then 30 else if weather_code ≥ 71 then 25
      else if weather_code ≥ 61 then 20 else if weather_code ≥ 51 then 10 else 0) := by
    split_ifs <;> norm_num
  have hb1 : (0 : ℚ) ≤ (if max_temp > 30 ∨ min_temp < 5 then 30
      else if max_temp > 25 ∨ min_temp < 10 then 15 else 0) := by
    split_ifs <;> norm_num
  have hb2 : (0 : ℚ) ≤ (if wind > 40 then 25 else if wind > 30 then 15 else 0) := by
    split_ifs <;> norm_num
  have hb3 : (0 : ℚ) ≤ (if weather_code ≥ 70 then 40 else if weather_code ≥ 50 then 30
      else if weather_code ≥ 30 then 20 else 0) := by
    split_ifs <;> norm_num
  refine ⟨⟨?_, ?_⟩, ?_, ?_⟩
  · simp only [calculate_weather_score]
    exact le_max_left 0 _
  · simp only [calculate_weather_score]
    apply max_le (by norm_num)
    linarith
  · simp only [calculate_day_score]
    exact Int.floor_nonneg.mpr (le_max_left 0 _)
  · simp only [calculate_day_score]
    have hb : Int.floor ((100 : ℚ)) = (100 : ℤ) := by norm_num
    rw [← hb]
    apply Int.floor_le_floor
    apply max_le (by norm_num)
    linarith

/-- Witness for the C5 theorem at the mild-day input of the spec scenario. -/
theorem c5_theorem_witness :
    (0 ≤ calculate_weather_score 22 14 0 0 10 1 ∧
      calculate_weather_score 22 14 0 0 10 1 ≤ 100) ∧
    (0 ≤ calculate_day_score 22 14 0 0 10 1 ∧
      calculate_day_score 22 14 0 0 10 1 ≤ 100) :=
  c5_theorem 22 14 0 0 10 1 (by norm_num) (by norm_num)

/-! ### Claim C6 -/

/-- Claim C6: increasing precipitation_mm while holding every other field
fixed never increases the score, for both scorer implementations. -/
theorem c6_theorem (max_temp min_temp precip_prob wind : ℚ) (weather_code : ℤ)
    (p1 p2 : ℚ) (hp : p1 ≤ p2) :
    calculate_weather_score max_temp min_temp p2 precip_prob wind weather_code ≤
      calculate_weather_score max_temp min_temp p1 precip_prob wind weather_code ∧
    calculate_day_score max_temp min_temp p2 precip_prob wind weather_code ≤
      calculate_day_score max_temp min_temp p1 precip_prob wind weather_code := by
  constructor
  · simp only [calculate_weather_score]
    exact max_le_max le_rfl (by linarith)
  · simp only [calculate_day_score]
    apply Int.floor_le_floor
    exact max_le_max le_rfl (by linarith)

/-- Witness for the C6 theorem: 2 mm versus 5 mm on an otherwise mild day. -/
theorem c6_theorem_witness :
    calculate_weather_score 22 14 5 0 10 1 ≤ calculate_weather_score 22 14 2 0 10 1 ∧
    calculate_day_score 22 14 5 0 10 1 ≤ calculate_day_score 22 14 2 0 10 1 :=
  c6_theorem 22 14 0 10 1 2 5 (by norm_num)

/-! ### Claim C3 -/

/-- Claim C3: whenever fewer scored days than the window size are supplied,
the selector returns the NotFound/empty outcome and never truncates the
window to the available days. -/
theorem c3_theorem (scoredDays : List ScoredDay) (daysNeeded : ℕ)
    (h : scoredDays.length < daysNeeded) :
    findBestConsecutiveDays scoredDays daysNeeded = [] := by
  rw [findBestConsecutiveDays, if_pos h]

/-- Witness for the C3 theorem: one scored day, window size 2. -/
theorem c3_theorem_witness :
    ([(⟨0, 50⟩ : ScoredDay)].length < 2) ∧
      findBestConsecutiveDays [⟨0, 50⟩] 2 = [] :=
  ⟨by decide, c3_theorem [⟨0, 50⟩] 2 (by decide)⟩

/-! ### Claim C2 -/

/-- Claim C2, counterexample: a fully contiguous 14-day sequence whose
scores are all 0 (a value in [0, 100]) makes every window total 0, which is
not strictly above the initial best_score of 0, so the selector returns the
empty NotFound outcome instead of 7 entries. -/
theorem c2_counterexample :
    findBestConsecutiveDays (mkContiguous 0 (fun _ => 0) 14) 7 = [] := by
  have h14 := mkContiguous_length 0 (fun _ => 0) 14
  have hs := mkContiguous_sorted 0 (fun _ => 0) 14
  rw [findBestConsecutiveDays, if_neg (by rw [h14]; omega)]
  dsimp only
  rw [hs, h14, show (14 : ℕ) - 7 + 1 = 8 by norm_num]
  rw [foldl_bestStep_const _ _ _ _ ?hz]
  case hz =>
    intro i hi
    rw [List.mem_range] at hi
    rw [mkContiguous_windowScore 0 (fun _ => 0) i (by omega)]
    simp
  rw [if_neg (lt_irrefl 0)]

/-- Claim C2 as amended: over a fully contiguous 14-day sequence with
scores in [0, 100] of which at least one is strictly positive,
_find_best_consecutive_days with window size 7 returns exactly the 7
consecutive dates of some window start b at most 7 (when every score is 0
it returns the empty outcome instead, see the counterexample). -/
theorem c2_theorem (d : ℤ) (s : ℕ → ℚ)
    (hlo : ∀ i, i < 14 → 0 ≤ s i) (hhi : ∀ i, i < 14 → s i ≤ 100)
    (hpos : ∃ i, i < 14 ∧ 0 < s i) :
    ∃ b : ℕ, b ≤ 7 ∧ findBestConsecutiveDays (mkContiguous d s 14) 7
      = (List.range 7).map fun j : ℕ => d + (b : ℤ) + (j : ℤ) := by
  have h14 : (mkContiguous d s 14).length = 14 := mkContiguous_length d s 14
  have hs : sortByDate (mkContiguous d s 14) = mkContiguous d s 14 :=
    mkContiguous_sorted d s 14
  obtain ⟨i, hi14, hip⟩ := hpos
  have hw7 : min i 7 ≤ 7 := min_le_right _ _
  have hcons := mkContiguous_consecutiveAt d s (min i 7) hw7
  have hwpos : 0 < windowScore (mkContiguous d s 14) (min i 7) 7 := by
    rw [mkContiguous_windowScore d s (min i 7) hw7]
    apply sum_map_range_pos
    · intro k hk
      exact hlo (min i 7 + k) (by omega)
    · refine ⟨i - min i 7, by omega, ?_⟩
      have he : min i 7 + (i - min i 7) = i := by omega
      rw [he]
      exact hip
  have hbpos : 0 < ((List.range 8).foldl (bestStep (mkContiguous d s 14) 7) (0, 0)).1 :=
    lt_of_lt_of_le hwpos
      (foldl_bestStep_fst_ge (mkContiguous d s 14) 7 (List.range 8) (0, 0) (min i 7)
        (List.mem_range.mpr (by omega)) hcons)
  have hble : ((List.range 8).foldl (bestStep (mkContiguous d s 14) 7) (0, 0)).2 ≤ 7 := by
    rcases foldl_bestStep_snd_mem (mkContiguous d s 14) 7 (List.range 8) (0, 0) with h | h
    · rw [h]
      decide
    · rw [List.mem_range] at h
      omega
  rw [findBestConsecutiveDays, if_neg (by rw [h14]; omega)]
  dsimp only
  rw [hs, h14, show (14 : ℕ) - 7 + 1 = 8 by norm_num]
  refine ⟨_, hble, ?_⟩
  rw [if_pos hbpos]
  apply List.map_congr_left
  intro k hk
  rw [List.mem_range] at hk
  rw [mkContiguous_getD _ _ _ _ (by omega)]
  push_cast
  ring

/-- Witness for the C2 theorem: day 0 scores 80, the other 13 days score
0. -/
theorem c2_theorem_witness :
    ∃ b : ℕ, b ≤ 7 ∧
      findBestConsecutiveDays (mkContiguous 0 (fun i => if i = 0 then 80 else 0) 14) 7
        = (List.range 7).map fun j : ℕ => (0 : ℤ) + (b : ℤ) + (j : ℤ) :=
  c2_theorem 0 _ (by intro i _; split_ifs <;> norm_num)
    (by intro i _; split_ifs <;> norm_num)
    ⟨0, by norm_num, by norm_num⟩

/-! ### Claim C7 -/

/-- Claim C7: whenever the forecast fetch fails, the payload has no daily
rows, or the consecutive-window selector returns the empty NotFound
outcome, _select_optimal_dates returns exactly `days` consecutive dates
starting the day after now (tomorrow). -/
theorem c7_theorem (now : ℤ) (days : ℕ) (fc : ForecastResult)
    (h : (∃ msg, fc = .fetchError msg) ∨
      (∃ rows, fc = .dailyData rows ∧
        (rows = [] ∨
          findBestConsecutiveDays (sortByScoreDesc (scoreRows rows)) days = []))) :
    selectOptimalDates now days fc
      = (List.range days).map fun i : ℕ => (now + 1) + (i : ℤ) := by
  rcases h with ⟨msg, rfl⟩ | ⟨rows, rfl, hrows⟩
  · rw [selectOptimalDates]
  · rcases hrows with rfl | hbest
    · rw [selectOptimalDates]
      dsimp only
      simp only [List.isEmpty_nil]
      rw [if_pos trivial]
    · rw [selectOptimalDates]
      dsimp only
      by_cases hemp : rows.isEmpty
      · rw [if_pos hemp]
      · rw [if_neg hemp, hbest]
        simp only [List.isEmpty_nil]
        rw [if_pos trivial]
        apply List.map_congr_left
        intro k _
        ring

/-- Witness for the C7 theorem: failed forecast fetch, 3 days from day
10. -/
theorem c7_theorem_witness :
    selectOptimalDates 10 3 (.fetchError "boom")
      = (List.range 3).map fun i : ℕ => ((10 : ℤ) + 1) + (i : ℤ) :=
  c7_theorem 10 3 (.fetchError "boom") (Or.inl ⟨"boom", rfl⟩)

/-! ### Claim C8 -/

/-- Claim C8, counterexample: under the balanced style configuration
(activities_per_day = 3) with a places collaborator that always returns a
candidate, the planned day holds 4 activities in the order morning,
afternoon, afternoon, evening, not exactly 3 in the order morning,
afternoon, evening. -/
theorem c8_counterexample :
    (planSingleDay placesAlways 0
        ⟨3, 15000, "moderate",
          ["tourist_attraction", "restaurant", "museum", "park", "shopping_mall"]⟩).map
      (fun p => p.activities.map (fun a => a.timeSlot))
      = .ok ["morning", "afternoon", "afternoon", "evening"] := by
  rfl

/-- Claim C8 as amended: for a trip style with activities_per_day = 3 whose
preferred types include at least one morning category (true of both shipped
3-activity styles, balanced and cultural), a day planned with no failing
activity lookup holds exactly 4 activities, in the order morning,
afternoon, afternoon, evening — one more than activities_per_day, matching
the data-model bound of 0 .. activities_per_day + 1. -/
theorem c8_theorem (places : String → ℕ → PlacesResult) (d : ℤ) (cfg : StyleConfig)
    (hapd : cfg.activitiesPerDay = 3)
    (hmorning : cfg.preferredTypes.filter (fun t => morningCategories.contains t) ≠ [])
    (hsucc : ∀ t r, ∃ p ps, places t r = .results (p :: ps)) :
    ∃ plan, planSingleDay places d cfg = .ok plan ∧
      plan.activities.map (fun a => a.timeSlot)
        = ["morning", "afternoon", "afternoon", "evening"] := by
  have hpref : cfg.preferredTypes ≠ [] := by
    intro h
    apply hmorning
    rw [h]
    rfl
  rw [planSingleDay_ok places d cfg hpref]
  refine ⟨_, rfl, ?_⟩
  obtain ⟨t, ts, hmt⟩ := List.exists_cons_of_ne_nil hmorning
  obtain ⟨pm, pms, hpm⟩ := hsucc t cfg.travelRadius
  obtain ⟨p0, ps0, hp0⟩ :=
    hsucc (cfg.preferredTypes.getD (0 % cfg.preferredTypes.length) "") cfg.travelRadius
  obtain ⟨p1, ps1, hp1⟩ :=
    hsucc (cfg.preferredTypes.getD (1 % cfg.preferredTypes.length) "") cfg.travelRadius
  obtain ⟨pe, pes, hpe⟩ := hsucc "restaurant" cfg.travelRadius
  simp only [planSingleDayCore, hapd, hmt, getActivityForTime, hpm, hp0, hp1, hpe,
    show min (3 - 1) 2 = 2 from rfl, show List.range 2 = [0, 1] from rfl,
    List.filterMap_cons, List.filterMap_nil, Option.toList_some, List.map_append,
    List.map_cons, List.map_nil]
  rfl

/-- Witness for the C8 theorem: the balanced style with an always-successful
places collaborator. -/
theorem c8_theorem_witness :
    ∃ plan, planSingleDay placesAlways 0
        ⟨3, 15000, "moderate",
          ["tourist_attraction", "restaurant", "museum", "park", "shopping_mall"]⟩
      = .ok plan ∧
      plan.activities.map (fun a => a.timeSlot)
        = ["morning", "afternoon", "afternoon", "evening"] :=
  c8_theorem placesAlways 0 _ rfl (by decide) (fun t r => ⟨_, _, rfl⟩)

/-! ### planTrip plumbing lemmas -/

lemma lookup_suggestions_none (a : Accommodation) (checkIn : ℤ) (nights : ℕ) :
    (mkAccommodationDict a checkIn nights).lookup "suggestions" = none := rfl

lemma formatTripPlan_keyError (location : String) (dates : List ℤ)
    (dailyPlans : List DayPlan) (a : Accommodation) (checkIn : ℤ) (nights : ℕ)
    (tripStyle budget : String) :
    formatTripPlan location dates dailyPlans (some (mkAccommodationDict a checkIn nights))
      tripStyle budget = .error "KeyError: suggestions" := rfl

lemma formatTripPlan_none (location : String) (dates : List ℤ)
    (dailyPlans : List DayPlan) (tripStyle budget : String) :
    formatTripPlan location dates dailyPlans none tripStyle budget
      = .ok ⟨location, dates.headD 0, dates.getLastD 0, dates.length, tripStyle, budget,
          none, dailyPlans⟩ := rfl

lemma planTripRest_keyError (env : Env) (locName : String) (dates : List ℤ)
    (cfg : StyleConfig) (ts b : String)
    (hpref : cfg.preferredTypes ≠ [])
    (hkey : env.bookingApiKey = true)
    (a : Accommodation) (rest : List Accommodation)
    (hbook : env.booking = .results (a :: rest)) :
    planTripRest env locName dates cfg ts b true = .error "KeyError: suggestions" := by
  unfold planTripRest
  rw [mapM_ok dates _ (fun dt => planSingleDayCore env.places dt cfg)
    (fun dt _ => planSingleDay_ok env.places dt cfg hpref)]
  rw [hkey, hbook]
  rfl

lemma planTripRest_noKey (env : Env) (locName : String) (dates : List ℤ)
    (cfg : StyleConfig) (ts b : String) (incl : Bool)
    (hpref : cfg.preferredTypes ≠ [])
    (hkey : env.bookingApiKey = false) :
    planTripRest env locName dates cfg ts b incl
      = .ok (.report ⟨locName, dates.headD 0, dates.getLastD 0, dates.length, ts, b,
          none, dates.map fun dt => planSingleDayCore env.places dt cfg⟩) := by
  unfold planTripRest
  rw [mapM_ok dates _ (fun dt => planSingleDayCore env.places dt cfg)
    (fun dt _ => planSingleDay_ok env.places dt cfg hpref)]
  rw [hkey, Bool.and_false]
  rfl

/-! ### Claim C4 -/

/-- Claim C4: on every plan_trip run that actually obtains an accommodation
offer (credential configured, accommodation search returns at least one
result, include_accommodation true) and reaches rendering (location
resolves, duration, style and budget valid, start date not malformed),
rendering subscripts the key suggestions, which the offer dict built by
_get_accommodation_suggestions never carries, so plan_trip raises an
uncaught KeyError instead of returning a report. -/
theorem c4_theorem (env : Env) (loc : LocationInput) (sd : StartDateInput)
    (dur : DurationInput) (style budget : String) (lat lng : ℚ) (locName : String)
    (n : ℕ) (cfg : StyleConfig) (a : Accommodation) (rest : List Accommodation)
    (hres : resolveLocation env loc = some (lat, lng, locName))
    (hdur : parseDuration dur = some n)
    (hstyle : tripStyles.lookup style = some cfg)
    (hbud : budgetCategories.contains budget = true)
    (hsd : sd ≠ .malformed)
    (hkey : env.bookingApiKey = true)
    (hbook : env.booking = .results (a :: rest)) :
    planTrip env loc sd dur style budget true = .error "KeyError: suggestions" := by
  have hpref := tripStyles_preferred_ne_nil style cfg hstyle
  have hn := parseDuration_pos dur n hdur
  simp only [planTrip, hres, hdur, hstyle, hbud, eq_self_iff_true, if_true]
  cases sd with
  | malformed => exact absurd rfl hsd
  | given d =>
      exact planTripRest_keyError env locName _ cfg style budget hpref hkey a rest hbook
  | notGiven =>
      have hlen := selectOptimalDates_length env.now n env.forecast
      have hne : (selectOptimalDates env.now n env.forecast).isEmpty = false := by
        rw [List.isEmpty_eq_false_iff_exists_mem]
        rcases hx : selectOptimalDates env.now n env.forecast with _ | ⟨x, xs⟩
        · rw [hx] at hlen
          simp at hlen
          omega
        · exact ⟨x, by simp⟩
      rw [hne]
      simp only [Bool.false_eq_true, if_false]
      exact planTripRest_keyError env locName _ cfg style budget hpref hkey a rest hbook

/-- Witness for the C4 theorem: a configured booking credential, one search
result, valid inputs, explicit start date. -/
theorem c4_theorem_witness :
    planTrip envWithBooking (.name "Rome") (.given 100) (.days 3) "balanced" "mid_range" true
      = .error "KeyError: suggestions" :=
  c4_theorem envWithBooking (.name "Rome") (.given 100) (.days 3) "balanced" "mid_range"
    1 1 "Rome" 3 _ sampleAccommodation [] (by decide) rfl rfl (by decide) (by decide)
    rfl rfl

/-! ### Claim C9 -/

/-- Claim C9: with include_accommodation true but no booking credential,
plan_trip still returns a rendered report with no accommodation section and
one day plan per selected date (no exception). -/
theorem c9_theorem (env : Env) (loc : LocationInput) (sd : StartDateInput)
    (dur : DurationInput) (style budget : String) (lat lng : ℚ) (locName : String)
    (n : ℕ) (cfg : StyleConfig)
    (hres : resolveLocation env loc = some (lat, lng, locName))
    (hdur : parseDuration dur = some n)
    (hstyle : tripStyles.lookup style = some cfg)
    (hbud : budgetCategories.contains budget = true)
    (hsd : sd ≠ .malformed)
    (hkey : env.bookingApiKey = false) :
    ∃ r, planTrip env loc sd dur style budget true = .ok (.report r) ∧
      r.accommodationSection = none ∧ r.days.length = n ∧ r.numDays = n := by
  have hpref := tripStyles_preferred_ne_nil style cfg hstyle
  have hn := parseDuration_pos dur n hdur
  simp only [planTrip, hres, hdur, hstyle, hbud, eq_self_iff_true, if_true]
  cases sd with
  | malformed => exact absurd rfl hsd
  | given d =>
      refine ⟨_, planTripRest_noKey env locName _ cfg style budget true hpref hkey, rfl,
        ?_, ?_⟩
      · simp
      · simp
  | notGiven =>
      have hlen := selectOptimalDates_length env.now n env.forecast
      have hne : (selectOptimalDates env.now n env.forecast).isEmpty = false := by
        rw [List.isEmpty_eq_false_iff_exists_mem]
        rcases hx : selectOptimalDates env.now n env.forecast with _ | ⟨x, xs⟩
        · rw [hx] at hlen
          simp at hlen
          omega
        · exact ⟨x, by simp⟩
      rw [hne]
      simp only [Bool.false_eq_true, if_false]
      refine ⟨_, planTripRest_noKey env locName _ cfg style budget true hpref hkey, rfl,
        ?_, ?_⟩
      · simp [hlen]
      · simp [hlen]

/-- Witness for the C9 theorem: no booking credential, valid inputs,
explicit start date. -/
theorem c9_theorem_witness :
    ∃ r, planTrip envNoBookingKey (.name "Rome") (.given 100) (.days 2) "cultural"
        "luxury" true = .ok (.report r) ∧
      r.accommodationSection = none ∧ r.days.length = 2 ∧ r.numDays = 2 :=
  c9_theorem envNoBookingKey (.name "Rome") (.given 100) (.days 2) "cultural" "luxury"
    1 1 "Rome" 2 _ (by decide) rfl rfl (by decide) (by decide) rfl

/-! ### Claim C10 -/

/-- Claim C10, counterexample: with an unknown trip style but a geocoder
that finds nothing, plan_trip returns the location-not-found message, not
the style validation message — so the style check does not precede location
resolution and the claimed outcome does not hold for every behavior of the
geocoding collaborator. -/
theorem c10_counterexample :
    planTrip envNoGeo (.name "Rome") .notGiven (.days 3) "nonexistent" "mid_range" true
      = .ok (.message .locationNotFound) ∧
    PlanMsg.locationNotFound ≠
      .invalidStyle "nonexistent" (tripStyles.map Prod.fst) := by
  constructor
  · rfl
  · intro h
    cases h

/-- Claim C10 as amended: for every plan_trip call whose trip style is not
a member of TRIP_STYLES, whose duration parses, and whose location
resolves, the result is the validation message listing the five valid
style names and nothing further is attempted; the check runs after
location resolution, so a geocoding failure returns the location error
instead (see the counterexample). -/
theorem c10_theorem (env : Env) (loc : LocationInput) (sd : StartDateInput)
    (dur : DurationInput) (budget : String) (incl : Bool) (style : String) (n : ℕ)
    (hstyle : tripStyles.lookup style = none)
    (hdur : parseDuration dur = some n)
    (hres : ∃ lat lng nm, resolveLocation env loc = some (lat, lng, nm)) :
    planTrip env loc sd dur style budget incl
      = .ok (.message (.invalidStyle style
          ["relaxed", "balanced", "adventure", "cultural", "food_focused"])) := by
  obtain ⟨lat, lng, nm, hres⟩ := hres
  simp only [planTrip, hres, hdur, hstyle]
  rfl

/-- Witness for the C10 theorem: unknown style, resolving geocoder, valid
duration. -/
theorem c10_theorem_witness :
    planTrip envNoBookingKey (.name "Rome") .notGiven (.days 3) "nonexistent"
        "mid_range" true
      = .ok (.message (.invalidStyle "nonexistent"
          ["relaxed", "balanced", "adventure", "cultural", "food_focused"])) :=
  c10_theorem envNoBookingKey (.name "Rome") .notGiven (.days 3) "mid_range" true
    "nonexistent" 3 rfl rfl ⟨1, 1, "Rome", by decide⟩
